import Mathlib

/-!
Verification of the Signal-IO-NIXNET CAN/EPOS driver core (`src/ni_can_epos.c`).

The C module keeps a process-wide khash map from integer handles (an X31 hash
of the configuration text) to per-node `SignalIOTaskData` structures, and
exposes the signal-I/O operations `InitDevice`, `EndDevice`, `Read`, `Write`,
`HasError`, `Reset`, `CheckInputChannel`, `GetMaxInputSamplesNumber`,
`AcquireOutputChannel` and `ReleaseOutputChannel`.

Shallow embedding conventions used below:
* The CAN transport (`can_network.h`) is an external collaborator; its calls
  are recorded as a trace of `Event`s, and the payloads delivered by
  `CANFrame_Read` and the outcomes of `CANNetwork_InitFrame` are inputs
  (parameters / an allocation oracle).
* The khash table is modelled as an association list with unique keys wrapped
  in `Option`: `none` models the `tasksList == NULL` state (before the first
  `InitDevice` and after the map is torn down).  A khash value may itself be a
  NULL task pointer (`Option SignalIOTaskData`), which happens transiently on the
  `InitDevice` failure path.
* Each operation returns `Option result`: `none` models a fault (a dereference
  of a NULL pointer, e.g. `kh_get` on a NULL map or `task->field` on a NULL
  task), `some` the defined outcome.
* C `int` / `int16_t` / `uint16_t` arithmetic is modelled on `Int` / `Nat`
  with explicit reduction modulo 2^32 / 2^16; signed overflow and
  out-of-range narrowing conversions are modelled as two's-complement
  wrap-around (the behavior of the compilers this driver targets).
* C `double` values are modelled as rationals; every operation the driver
  performs on them (integer conversion, multiplication by 1000, division by
  1000.0, comparison with 0) is exact on the values involved.
-/

/-! ## Input/output channel enumerations (`ni_can_epos.c` lines 31-32) -/

def INPUT_POSITION : Nat := 0
def INPUT_VELOCITY : Nat := 1
def INPUT_CURRENT : Nat := 2
def INPUT_ANALOG : Nat := 3
def INPUT_CHANNELS_NUMBER : Nat := 4
def OUTPUT_CHANNELS_NUMBER : Nat := 3

/-! ## Control word flags (`enum Controls`, lines 37-38) and status flags -/

def SWITCH_ON : Nat := 1
def ENABLE_VOLTAGE : Nat := 2
def QUICK_STOP : Nat := 4
def ENABLE_OPERATION : Nat := 8
def FAULT : Nat := 8
def FAULT_RESET : Nat := 128

/-- Modelled from the spec: `can_network.h` is an external collaborator not in
the repository; it enumerates the three frame kinds (two process-data frames
PDO1/PDO2 and one service-data frame SDO), `CAN_FRAME_TYPES_NUMBER = 3`. -/
def PDO01 : Nat := 0

/-- Modelled from the spec: second process-data frame kind. -/
def PDO02 : Nat := 1

/-- Modelled from the spec: service-data frame kind. -/
def SDO : Nat := 2

/-- Modelled from the spec: frame direction flags `FRAME_IN` / `FRAME_OUT`
of the external `can_network.h`. -/
inductive FrameDir where
  | frameIn : FrameDir
  | frameOut : FrameDir
deriving Repr, DecidableEq

/-! ## Machine-integer helpers -/

/-- Reinterpret a C `unsigned` value as `int` (two's complement, 32 bits):
the value of `(int) u` for `u = n mod 2^32`. -/
def int32ofNat (n : Nat) : Int :=
  if n % 4294967296 < 2147483648 then ((n % 4294967296 : Nat) : Int)
  else ((n % 4294967296 : Nat) : Int) - 4294967296

/-- Conversion of an `int`-valued quantity to `khint_t` (uint32): `z mod 2^32`. -/
def uint32ofInt (z : Int) : Nat := (z % 4294967296).toNat

/-- Narrowing of an integer to `int16_t`, modelled as two's-complement wrap. -/
def int16ofInt (z : Int) : Int :=
  if z % 65536 < 32768 then z % 65536 else z % 65536 - 65536

/-- C cast `(int) value` from `double`: truncation toward zero, computed on
the reduced fraction (exact on the rationals modelling the doubles;
out-of-range conversion is undefined in C and every theorem below restricts
to the representable range). -/
def ctrunc (q : ℚ) : Int := q.num.tdiv (q.den : Int)

/-- Byte `i` of the 32-bit two's-complement representation of `z`; models the
C mask-and-divide sequences `(x & 0xFF)`, `(x & 0xFF00)/0x100`, ... applied to
an `int` (the `0xFF000000` mask promotes to `unsigned`). -/
def byte32 (z : Int) (i : Nat) : Nat := ((z % 4294967296).toNat / 256 ^ i) % 256

/-- Byte `i` of the 16-bit two's-complement representation of `z`. -/
def byte16 (z : Int) (i : Nat) : Nat := ((z % 65536).toNat / 256 ^ i) % 256

/-! ## Payloads and tasks -/

/-- An 8-byte CAN payload buffer (`uint8_t[8]`). -/
abbrev Payload := List Nat

/-- Byte `i` of a payload; the buffer cells have C type `uint8_t`, so the
stored value is reduced modulo 256. -/
def byteAt (p : Payload) (i : Nat) : Nat := p.getD i 0 % 256

/-- The 8 bytes of a payload as the `uint8_t` buffer holds them. -/
def canon8 (p : Payload) : Payload := (List.range 8).map (byteAt p)

/-- `SignalIOTaskData` (lines 40-49): per-node aggregate.  Frame handles are
`Option Nat` (`none` = NULL `CANFrame`). -/
structure SignalIOTaskData where
  readFramesList : List (Option Nat)
  writeFramesList : List (Option Nat)
  statusWord : Nat
  controlWord : Nat
  measuresList : List ℚ
  isReading : Bool
  isOutputChannelUsed : Bool
  readPayload : Payload
  writePayload : Payload
deriving Repr, DecidableEq

/-- `task->readFramesList[i]` / `task->writeFramesList[i]`. -/
def frameAt (l : List (Option Nat)) (i : Nat) : Option Nat := l.getD i none

/-- The khash map contents: association list from `khint_t` keys to the stored
`SignalIOTask` pointers (`none` = NULL pointer value). -/
abbrev Registry := List (Nat × Option SignalIOTaskData)

/-- `kh_get`: first entry with the given key. -/
def regLookup : Registry → Nat → Option (Option SignalIOTaskData)
  | [], _ => none
  | (k', v) :: rest, k => if k' = k then some v else regLookup rest k

/-- In-place mutation of the task object stored under `k` (pointer write). -/
def regUpdate : Registry → Nat → SignalIOTaskData → Registry
  | [], _, _ => []
  | (k', v) :: rest, k, t => if k' = k then (k', some t) :: rest else (k', v) :: regUpdate rest k t

/-- `kh_del`: remove the entry with the given key. -/
def regErase : Registry → Nat → Registry
  | [], _ => []
  | (k', v) :: rest, k => if k' = k then rest else (k', v) :: regErase rest k

/-- Transport interactions, recorded in call order.  `writeSingleValue` is
`CANNetwork_WriteSingleValue(frame, index, subIndex, value)`. -/
inductive Event where
  | initFrame : Nat → FrameDir → Nat → Option Nat → Event
  | endFrame : Option Nat → Event
  | readFrame : Option Nat → Event
  | writeFrame : Option Nat → Payload → Event
  | writeSingleValue : Option Nat → Nat → Nat → Nat → Event
  | sync : Event
  | delay : Nat → Event
deriving Repr, DecidableEq

/-! ## Frame codec (decode side, `Read` lines 130-148) -/

/-- `currentHEX = readPayload[5] * 0x100 + readPayload[4]` (line 136). -/
def currentHEX (p : Payload) : Nat := byteAt p 5 * 256 + byteAt p 4

/-- `currentMA = currentHEX - ((currentHEX >= 0x8000) ? 0xFFFF : 0)` and
`measuresList[INPUT_CURRENT] = currentMA / 1000.0` (lines 137-138). -/
def decodeCurrent (p : Payload) : ℚ :=
  (((currentHEX p : Int) - (if 32768 ≤ currentHEX p then 65535 else 0) : Int) : ℚ) / 1000

/-- `payload[3]*0x1000000 + payload[2]*0x10000 + payload[1]*0x100 + payload[0]`
(lines 135 and 147).  The products and sums are C `int` arithmetic: for
`payload[3] >= 0x80` the multiplication overflows `int` and wraps, so the
decoded value is the two's-complement 32-bit reinterpretation of the
little-endian word. -/
def le32signed (p : Payload) : Int :=
  int32ofNat (byteAt p 3 * 16777216 + byteAt p 2 * 65536 + byteAt p 1 * 256 + byteAt p 0)

/-- `payload[5] * 0x100 + payload[4]` for PDO2 (analog input, line 148). -/
def decodeAnalog (p : Payload) : ℚ := ((byteAt p 5 * 256 + byteAt p 4 : Nat) : ℚ)

/-- `statusWord = payload[7] * 0x100 + payload[6]` (line 142). -/
def decodeStatus (p : Payload) : Nat := byteAt p 7 * 256 + byteAt p 6

/-- Effect of the decode section of `Read` (lines 133-148) on the task, given
the payloads delivered by `CANFrame_Read` for PDO01 and PDO02: all four
measures are refreshed, the status word is updated, and the scratch read
buffer is left holding the PDO02 bytes. -/
def decodeTask (t : SignalIOTaskData) (p1 p2 : Payload) : SignalIOTaskData :=
  { t with
    measuresList := [((le32signed p1 : Int) : ℚ), ((le32signed p2 : Int) : ℚ),
                     decodeCurrent p1, decodeAnalog p2]
    statusWord := decodeStatus p1
    readPayload := canon8 p2 }

/-! ## Frame codec (encode side, `Write` lines 200-233) -/

/-- Outbound PDO01 payload (lines 200-214): little-endian 32-bit
`encoderSetpoint = (int) value`, little-endian `currentSetpointHEX`
(`(int16_t)(value*1000)` plus `0xFFFF` when `value*1000 < 0`, narrowed back to
`int16_t`), and the task's current control word. -/
def pdo1WritePayload (cw : Nat) (v : ℚ) : Payload :=
  [byte32 (ctrunc v) 0, byte32 (ctrunc v) 1, byte32 (ctrunc v) 2, byte32 (ctrunc v) 3,
   byte16 (int16ofInt (int16ofInt (ctrunc (v * 1000)) + (if v * 1000 < 0 then 65535 else 0))) 0,
   byte16 (int16ofInt (int16ofInt (ctrunc (v * 1000)) + (if v * 1000 < 0 then 65535 else 0))) 1,
   cw % 256, cw / 256 % 256]

/-- Outbound PDO02 payload (lines 219-230): little-endian 32-bit
`velocitySetpointRPM = (int) value`, little-endian
`digitalOutput = (int16_t) value`, two zero bytes. -/
def pdo2WritePayload (v : ℚ) : Payload :=
  [byte32 (ctrunc v) 0, byte32 (ctrunc v) 1, byte32 (ctrunc v) 2, byte32 (ctrunc v) 3,
   byte16 (int16ofInt (ctrunc v)) 0, byte16 (int16ofInt (ctrunc v)) 1, 0, 0]

/-! ## Control-word state machine -/

/-- `EnableOutput` (lines 240-252): returns the mutated task and the trace of
transport calls (two SDO control-word writes around a 200 ms delay). -/
def EnableOutput (t : SignalIOTaskData) (enable : Bool) : SignalIOTaskData × List Event :=
  let cw1 := (t.controlWord ||| SWITCH_ON) &&& (65535 ^^^ ENABLE_OPERATION)
  let cw2 := if enable then cw1 ||| ENABLE_OPERATION else cw1 &&& (65535 ^^^ SWITCH_ON)
  ({ t with controlWord := cw2 },
   [Event.writeSingleValue (frameAt t.writeFramesList SDO) 0x6040 0x00 cw1,
    Event.delay 200,
    Event.writeSingleValue (frameAt t.writeFramesList SDO) 0x6040 0x00 cw2])

/-! ## Task construction / destruction -/

/-- Modelled from the spec: the node identifier is parsed from the
configuration text by `strtoul` (libc, external); for the plain decimal
configuration strings this driver receives this is the value of the leading
decimal digits. -/
def parseNodeID : List Nat → Nat → Nat
  | [], acc => acc
  | c :: rest, acc => if 48 ≤ c ∧ c ≤ 57 then parseNodeID rest (acc * 10 + (c - 48)) else acc

/-- `UnloadTaskData` (lines 337-350): `CANNetwork_EndFrame` on each of the six
frame handles in loop order (read then write per frame kind); no-op on a NULL
task. -/
def unloadEvents (t : Option SignalIOTaskData) : List Event :=
  match t with
  | none => []
  | some task =>
      [Event.endFrame (frameAt task.readFramesList 0), Event.endFrame (frameAt task.writeFramesList 0),
       Event.endFrame (frameAt task.readFramesList 1), Event.endFrame (frameAt task.writeFramesList 1),
       Event.endFrame (frameAt task.readFramesList 2), Event.endFrame (frameAt task.writeFramesList 2)]

/-- `LoadTaskData` (lines 306-335).  `alloc frameType dir nodeID` is the
outcome of `CANNetwork_InitFrame` for that binding (`none` = NULL).  Returns
the constructed task (or `none` on any allocation failure, after releasing all
partially-acquired handles) together with the transport trace. -/
def LoadTaskData (cfg : List Nat) (alloc : Nat → FrameDir → Nat → Option Nat) :
    Option SignalIOTaskData × List Event :=
  let nodeID := parseNodeID cfg 0
  let r0 := alloc 0 FrameDir.frameIn nodeID
  let w0 := alloc 0 FrameDir.frameOut nodeID
  let r1 := alloc 1 FrameDir.frameIn nodeID
  let w1 := alloc 1 FrameDir.frameOut nodeID
  let r2 := alloc 2 FrameDir.frameIn nodeID
  let w2 := alloc 2 FrameDir.frameOut nodeID
  let initEvs := [Event.initFrame 0 FrameDir.frameIn nodeID r0, Event.initFrame 0 FrameDir.frameOut nodeID w0,
                  Event.initFrame 1 FrameDir.frameIn nodeID r1, Event.initFrame 1 FrameDir.frameOut nodeID w1,
                  Event.initFrame 2 FrameDir.frameIn nodeID r2, Event.initFrame 2 FrameDir.frameOut nodeID w2]
  let zeroTask : SignalIOTaskData :=
    { readFramesList := [r0, r1, r2], writeFramesList := [w0, w1, w2],
      statusWord := 0, controlWord := 0,
      measuresList := [0, 0, 0, 0],
      isReading := false, isOutputChannelUsed := false,
      readPayload := List.replicate 8 0, writePayload := List.replicate 8 0 }
  if r0.isNone || w0.isNone || r1.isNone || w1.isNone || r2.isNone || w2.isNone then
    (none, initEvs ++ unloadEvents (some zeroTask))
  else
    (some { zeroTask with controlWord := ENABLE_VOLTAGE ||| QUICK_STOP },
     initEvs ++ [Event.writeSingleValue w2 0x6040 0x00 (ENABLE_VOLTAGE ||| QUICK_STOP)])

/-! ## Registry / handle hashing -/

/-- Modelled from the spec: the handle is derived deterministically from the
configuration string by khash's X31 string hash (`kh_str_hash_func`, external
`khash.h`): `h = 31*h + c` over the bytes, in `khint_t` (uint32) arithmetic. -/
def kh_str_hash : List Nat → Nat
  | [] => 0
  | c :: rest => rest.foldl (fun h c' => (h * 31 + c') % 4294967296) (c % 4294967296)

/-! ## Public operations -/

/-- `EndDevice` (lines 91-111).  Faults (`none`) when the map is NULL
(`kh_get` dereferences it) or when the stored task pointer is NULL
(`task->isReading = false` dereferences it). -/
def EndDevice (reg : Option Registry) (taskID : Int) : Option (Option Registry × List Event) :=
  match reg with
  | none => none
  | some r =>
    match regLookup r (uint32ofInt taskID) with
    | none => some (some r, [])
    | some none => none
    | some (some t) =>
      let t1 := { t with isReading := false }
      let (t2, enableEvs) := EnableOutput t1 false
      let r' := regErase r (uint32ofInt taskID)
      some (if r'.length = 0 then none else some r', enableEvs ++ unloadEvents (some t2))

/-- `InitDevice` (lines 64-89).  Lazily creates the map, hashes the
configuration into the key, and either returns the existing handle or
constructs a task via `LoadTaskData`; on construction failure the NULL result
is stored in the map and `EndDevice` is invoked on it (which faults on the
NULL task pointer — see the C5 analysis). -/
def InitDevice (reg : Option Registry) (cfg : List Nat)
    (alloc : Nat → FrameDir → Nat → Option Nat) : Option (Int × Option Registry × List Event) :=
  let r0 := reg.getD []
  let key := kh_str_hash cfg
  match regLookup r0 key with
  | some _ => some (int32ofNat key, some r0, [])
  | none =>
    let (taskOpt, loadEvs) := LoadTaskData cfg alloc
    let r1 := r0 ++ [(key, taskOpt)]
    match taskOpt with
    | some _ => some (int32ofNat key, some r1, loadEvs)
    | none =>
      match EndDevice (some r1) (int32ofNat key) with
      | none => none
      | some (reg', endEvs) => some (-1, reg', loadEvs ++ endEvs)

/-- `GetMaxInputSamplesNumber` (lines 113-119). -/
def GetMaxInputSamplesNumber (reg : Option Registry) (taskID : Int) : Option Nat :=
  match reg with
  | none => none
  | some r =>
    match regLookup r (uint32ofInt taskID) with
    | none => some 0
    | some _ => some 1

/-- `Read` (lines 121-153).  `p1`, `p2` are the payloads `CANFrame_Read`
delivers for the inbound PDO01 and PDO02 frames.  Returns the C return value,
the value stored through `ref_value` (`none` when left untouched), the
registry after the task mutation, and the transport trace. -/
def Read (reg : Option Registry) (taskID : Int) (channel : Nat) (p1 p2 : Payload) :
    Option (Nat × Option ℚ × Option Registry × List Event) :=
  match reg with
  | none => none
  | some r =>
    match regLookup r (uint32ofInt taskID) with
    | none => some (0, none, some r, [])
    | some tp =>
      if INPUT_CHANNELS_NUMBER ≤ channel then some (0, none, some r, [])
      else
        match tp with
        | none => none
        | some t =>
          let t' := decodeTask t p1 p2
          some (1, some (t'.measuresList.getD channel 0),
                some (regUpdate r (uint32ofInt taskID) t'),
                [Event.sync, Event.readFrame (frameAt t.readFramesList PDO01),
                 Event.readFrame (frameAt t.readFramesList PDO02)])

/-- `HasError` (lines 155-165): fault bit of the last decoded status word. -/
def HasError (reg : Option Registry) (taskID : Int) : Option Bool :=
  match reg with
  | none => none
  | some r =>
    match regLookup r (uint32ofInt taskID) with
    | none => some false
    | some none => none
    | some (some t) => some (decide (t.statusWord &&& FAULT ≠ 0))

/-- `Reset` (lines 167-181): pulses the fault-reset control bit through two
SDO writes separated by the settle delay. -/
def Reset (reg : Option Registry) (taskID : Int) : Option (Option Registry × List Event) :=
  match reg with
  | none => none
  | some r =>
    match regLookup r (uint32ofInt taskID) with
    | none => some (some r, [])
    | some none => none
    | some (some t) =>
      let cw1 := t.controlWord ||| FAULT_RESET
      let cw2 := cw1 &&& (65535 ^^^ FAULT_RESET)
      some (some (regUpdate r (uint32ofInt taskID) { t with controlWord := cw2 }),
            [Event.writeSingleValue (frameAt t.writeFramesList SDO) 0x6040 0x00 cw1,
             Event.delay 200,
             Event.writeSingleValue (frameAt t.writeFramesList SDO) 0x6040 0x00 cw2])

/-- `CheckInputChannel` (lines 183-191). -/
def CheckInputChannel (reg : Option Registry) (taskID : Int) (channel : Nat) : Option Bool :=
  match reg with
  | none => none
  | some r =>
    match regLookup r (uint32ofInt taskID) with
    | none => some false
    | some _ => some (decide (channel < INPUT_CHANNELS_NUMBER))

/-- `Write` (lines 193-238).  Note: the `channel` argument is never examined
by the C function. -/
def Write (reg : Option Registry) (taskID : Int) (channel : Nat) (value : ℚ) :
    Option (Bool × Option Registry × List Event) :=
  match reg with
  | none => none
  | some r =>
    match regLookup r (uint32ofInt taskID) with
    | none => some (false, some r, [])
    | some none => none
    | some (some t) =>
      let p1 := pdo1WritePayload t.controlWord value
      let p2 := pdo2WritePayload value
      some (true, some (regUpdate r (uint32ofInt taskID) { t with writePayload := p2 }),
            [Event.writeFrame (frameAt t.writeFramesList PDO01) p1,
             Event.writeFrame (frameAt t.writeFramesList PDO02) p2,
             Event.sync])

/-- `OPERATION_MODES` (line 268). -/
def OPERATION_MODES : List Nat := [0xFF, 0xFE, 0xFD]

/-- `AcquireOutputChannel` (lines 266-288). -/
def AcquireOutputChannel (reg : Option Registry) (taskID : Int) (channel : Nat) :
    Option (Bool × Option Registry × List Event) :=
  match reg with
  | none => none
  | some r =>
    match regLookup r (uint32ofInt taskID) with
    | none => some (false, some r, [])
    | some tp =>
      if OUTPUT_CHANNELS_NUMBER ≤ channel then some (false, some r, [])
      else
        match tp with
        | none => none
        | some t =>
          if t.isOutputChannelUsed then some (false, some r, [])
          else
            let (t1, enableEvs) := EnableOutput t true
            some (true,
                  some (regUpdate r (uint32ofInt taskID) { t1 with isOutputChannelUsed := true }),
                  Event.writeSingleValue (frameAt t.writeFramesList SDO) 0x6060 0x00
                      (OPERATION_MODES.getD channel 0) :: enableEvs)

/-- `ReleaseOutputChannel` (lines 290-304). -/
def ReleaseOutputChannel (reg : Option Registry) (taskID : Int) (channel : Nat) :
    Option (Option Registry × List Event) :=
  match reg with
  | none => none
  | some r =>
    match regLookup r (uint32ofInt taskID) with
    | none => some (some r, [])
    | some tp =>
      if OUTPUT_CHANNELS_NUMBER ≤ channel then some (some r, [])
      else
        match tp with
        | none => none
        | some t =>
          let (t1, enableEvs) := EnableOutput t false
          some (some (regUpdate r (uint32ofInt taskID) { t1 with isOutputChannelUsed := false }),
                Event.writeSingleValue (frameAt t.writeFramesList SDO) 0x6060 0x00 0 :: enableEvs)

/-! ## Registry lemmas -/

theorem regLookup_regUpdate (r : Registry) (k : Nat) (t : SignalIOTaskData)
    (v : Option SignalIOTaskData) (h : regLookup r k = some v) :
    regLookup (regUpdate r k t) k = some (some t) := by
  induction r with
  | nil => simp [regLookup] at h
  | cons p rest ih =>
    obtain ⟨k', v'⟩ := p
    by_cases hk : k' = k
    · simp [regLookup, regUpdate, hk]
    · simp only [regLookup, regUpdate, if_neg hk] at h ⊢
      exact ih h

theorem regLookup_eq_none_of_not_mem (r : Registry) (k : Nat)
    (h : k ∉ r.map Prod.fst) : regLookup r k = none := by
  induction r with
  | nil => rfl
  | cons p rest ih =>
    obtain ⟨k', v'⟩ := p
    simp only [List.map_cons, List.mem_cons] at h
    push_neg at h
    have hne : k' ≠ k := fun hh => h.1 hh.symm
    simp only [regLookup, if_neg hne]
    exact ih h.2

theorem regLookup_regErase_of_nodup (r : Registry) (k : Nat)
    (hnd : (r.map Prod.fst).Nodup) (h : (regLookup r k).isSome) :
    regLookup (regErase r k) k = none := by
  induction r with
  | nil => simp [regLookup] at h
  | cons p rest ih =>
    obtain ⟨k', v'⟩ := p
    simp only [List.map_cons, List.nodup_cons] at hnd
    by_cases hk : k' = k
    · subst hk
      simp only [regErase, if_pos rfl]
      exact regLookup_eq_none_of_not_mem rest k' hnd.1
    · simp only [regLookup, if_neg hk, regErase] at h ⊢
      exact ih hnd.2 h

theorem regErase_length (r : Registry) (k : Nat) (h : (regLookup r k).isSome) :
    (regErase r k).length = r.length - 1 := by
  induction r with
  | nil => simp [regLookup] at h
  | cons p rest ih =>
    obtain ⟨k', v'⟩ := p
    by_cases hk : k' = k
    · simp [regErase, hk]
    · simp only [regLookup, if_neg hk] at h
      simp only [regErase, if_neg hk, List.length_cons, ih h]
      have : (regLookup rest k).isSome := h
      cases rest with
      | nil => simp [regLookup] at this
      | cons q l => simp

/-! ## Concrete fixtures used by witnesses and counterexamples -/

/-- A representative fully-constructed task, as a successful `LoadTaskData`
leaves it (all six frame handles non-null, control word
`ENABLE_VOLTAGE | QUICK_STOP`). -/
def task0 : SignalIOTaskData :=
  { readFramesList := [some 1, some 2, some 3], writeFramesList := [some 4, some 5, some 6],
    statusWord := 0, controlWord := 6, measuresList := [0, 0, 0, 0],
    isReading := false, isOutputChannelUsed := false,
    readPayload := List.replicate 8 0, writePayload := List.replicate 8 0 }

/-- `task0` with the output channel already acquired. -/
def task1 : SignalIOTaskData := { task0 with isOutputChannelUsed := true }

/-- A registry holding `task0` under handle 5. -/
def reg0 : Registry := [(5, some task0)]

/-- A registry holding `task1` under handle 5. -/
def reg1 : Registry := [(5, some task1)]

/-- An allocation oracle on which every `CANNetwork_InitFrame` call succeeds. -/
def allocOK : Nat → FrameDir → Nat → Option Nat :=
  fun ft d _ => some (2 * ft + (if d = FrameDir.frameOut then 1 else 0))

/-- An allocation oracle on which every `CANNetwork_InitFrame` call fails. -/
def allocFail : Nat → FrameDir → Nat → Option Nat := fun _ _ _ => none

/-- The configuration text "5" (one byte, the digit 5). -/
def cfg5 : List Nat := [53]

/-! ## Claims -/

/-- C1: for every 8-byte inbound PDO1 payload read by `Read` on a registered
handle with a valid channel, the current measure is decoded from bytes 4-5 as
an unsigned 16-bit little-endian value `raw`, stored as `raw/1000` amps when
`raw < 0x8000` and as `(raw - 0xFFFF)/1000` amps when `raw >= 0x8000` (the
documented off-by-one two's-complement correction, reproduced exactly). -/
theorem read_pdo1_current_decode (r : Registry) (tid : Int) (channel : Nat)
    (t : SignalIOTaskData) (p1 p2 : Payload)
    (hk : regLookup r (uint32ofInt tid) = some (some t))
    (hch : channel < INPUT_CHANNELS_NUMBER) :
    ∃ r' evs v, Read (some r) tid channel p1 p2 = some (1, some v, some r', evs) ∧
      ∃ t', regLookup r' (uint32ofInt tid) = some (some t') ∧
        t'.measuresList.getD INPUT_CURRENT 0 =
          (if byteAt p1 5 * 256 + byteAt p1 4 < 0x8000
           then ((byteAt p1 5 * 256 + byteAt p1 4 : Nat) : ℚ)
           else ((byteAt p1 5 * 256 + byteAt p1 4 : Nat) : ℚ) - 0xFFFF) / 1000 := by
  have hch' : ¬ (INPUT_CHANNELS_NUMBER ≤ channel) := Nat.not_le.mpr hch
  have hread : Read (some r) tid channel p1 p2 =
      some (1, some ((decodeTask t p1 p2).measuresList.getD channel 0),
            some (regUpdate r (uint32ofInt tid) (decodeTask t p1 p2)),
            [Event.sync, Event.readFrame (frameAt t.readFramesList PDO01),
             Event.readFrame (frameAt t.readFramesList PDO02)]) := by
    simp [Read, hk, hch']
  refine ⟨_, _, _, hread, decodeTask t p1 p2, regLookup_regUpdate r _ _ _ hk, ?_⟩
  show decodeCurrent p1 = _
  rw [decodeCurrent, currentHEX]
  by_cases h : 32768 ≤ byteAt p1 5 * 256 + byteAt p1 4
  · rw [if_pos h, if_neg (by omega)]
    push_cast
    ring
  · rw [if_neg h, if_pos (by omega)]
    push_cast
    ring

/-- Witness for C1: handle 5 registered with `task0`, channel `current`,
PDO1 payload carrying raw current bytes 0x2710 = 10000 mA. -/
theorem read_pdo1_current_decode_witness :
    regLookup reg0 (uint32ofInt 5) = some (some task0) ∧ 2 < INPUT_CHANNELS_NUMBER ∧
    (∃ r' evs v,
      Read (some reg0) 5 2 [0, 0, 0, 0, 0x10, 0x27, 0, 0] (List.replicate 8 0)
        = some (1, some v, some r', evs) ∧
      ∃ t', regLookup r' (uint32ofInt 5) = some (some t') ∧
        t'.measuresList.getD INPUT_CURRENT 0 =
          (if byteAt [0, 0, 0, 0, 0x10, 0x27, 0, 0] 5 * 256 + byteAt [0, 0, 0, 0, 0x10, 0x27, 0, 0] 4 < 0x8000
           then ((byteAt [0, 0, 0, 0, 0x10, 0x27, 0, 0] 5 * 256 + byteAt [0, 0, 0, 0, 0x10, 0x27, 0, 0] 4 : Nat) : ℚ)
           else ((byteAt [0, 0, 0, 0, 0x10, 0x27, 0, 0] 5 * 256 + byteAt [0, 0, 0, 0, 0x10, 0x27, 0, 0] 4 : Nat) : ℚ) - 0xFFFF) / 1000) :=
  ⟨by rfl, by decide,
   read_pdo1_current_decode reg0 5 2 task0 [0, 0, 0, 0, 0x10, 0x27, 0, 0]
     (List.replicate 8 0) (by rfl) (by decide)⟩

theorem byteAt_lt (p : Payload) (i : Nat) : byteAt p i < 256 := by
  unfold byteAt; omega

/-- Truncation toward zero is the identity on integral values. -/
theorem ctrunc_intCast (z : Int) : ctrunc ((z : ℚ)) = z := by
  rw [ctrunc, Rat.num_intCast, Rat.den_intCast]
  simp

/-- The little-endian `int` decode of bytes 0-3 (lines 135/147) equals the
unsigned value when byte 3 is below 0x80 and wraps to the signed
reinterpretation otherwise. -/
theorem le32signed_eq (p : Payload) :
    le32signed p =
      if byteAt p 3 < 128
      then ((byteAt p 0 + 256 * byteAt p 1 + 65536 * byteAt p 2 + 16777216 * byteAt p 3 : Nat) : Int)
      else ((byteAt p 0 + 256 * byteAt p 1 + 65536 * byteAt p 2 + 16777216 * byteAt p 3 : Nat) : Int)
           - 4294967296 := by
  have h0 := byteAt_lt p 0
  have h1 := byteAt_lt p 1
  have h2 := byteAt_lt p 2
  have h3 := byteAt_lt p 3
  rw [le32signed, int32ofNat]
  have hlt : byteAt p 3 * 16777216 + byteAt p 2 * 65536 + byteAt p 1 * 256 + byteAt p 0
      < 4294967296 := by omega
  rw [Nat.mod_eq_of_lt hlt]
  split <;> split <;> [omega; omega; omega; omega]

/-- C3 (amended): `Read` decodes the position (PDO1 bytes 0-3) and velocity
(PDO2 bytes 0-3) fields as little-endian 32-bit values computed in C `int`
arithmetic: the stored measure equals `b0 + 256*b1 + 65536*b2 + 16777216*b3`
when `b3 < 0x80`, but for `b3 >= 0x80` the `int` multiplication overflows and
wraps, so the measure equals that value minus 2^32 (the signed
reinterpretation), not the unsigned value the claim asserts. -/
theorem read_position_velocity_decode (r : Registry) (tid : Int) (channel : Nat)
    (t : SignalIOTaskData) (p1 p2 : Payload)
    (hk : regLookup r (uint32ofInt tid) = some (some t))
    (hch : channel < INPUT_CHANNELS_NUMBER) :
    ∃ r' evs v, Read (some r) tid channel p1 p2 = some (1, some v, some r', evs) ∧
      ∃ t', regLookup r' (uint32ofInt tid) = some (some t') ∧
        t'.measuresList.getD INPUT_POSITION 0 =
          (if byteAt p1 3 < 128
           then ((byteAt p1 0 + 256 * byteAt p1 1 + 65536 * byteAt p1 2 + 16777216 * byteAt p1 3 : Nat) : ℚ)
           else ((byteAt p1 0 + 256 * byteAt p1 1 + 65536 * byteAt p1 2 + 16777216 * byteAt p1 3 : Nat) : ℚ)
                - 4294967296) ∧
        t'.measuresList.getD INPUT_VELOCITY 0 =
          (if byteAt p2 3 < 128
           then ((byteAt p2 0 + 256 * byteAt p2 1 + 65536 * byteAt p2 2 + 16777216 * byteAt p2 3 : Nat) : ℚ)
           else ((byteAt p2 0 + 256 * byteAt p2 1 + 65536 * byteAt p2 2 + 16777216 * byteAt p2 3 : Nat) : ℚ)
                - 4294967296) := by
  have hch' : ¬ (INPUT_CHANNELS_NUMBER ≤ channel) := Nat.not_le.mpr hch
  have hread : Read (some r) tid channel p1 p2 =
      some (1, some ((decodeTask t p1 p2).measuresList.getD channel 0),
            some (regUpdate r (uint32ofInt tid) (decodeTask t p1 p2)),
            [Event.sync, Event.readFrame (frameAt t.readFramesList PDO01),
             Event.readFrame (frameAt t.readFramesList PDO02)]) := by
    simp [Read, hk, hch']
  refine ⟨_, _, _, hread, decodeTask t p1 p2, regLookup_regUpdate r _ _ _ hk, ?_, ?_⟩
  · show ((le32signed p1 : Int) : ℚ) = _
    rw [le32signed_eq]
    split <;> push_cast <;> ring
  · show ((le32signed p2 : Int) : ℚ) = _
    rw [le32signed_eq]
    split <;> push_cast <;> ring

/-- Witness for C3 (amended): position bytes 0x04030201 (b3 < 0x80) and
velocity bytes with b3 = 0xFF. -/
theorem read_position_velocity_decode_witness :
    regLookup reg0 (uint32ofInt 5) = some (some task0) ∧ 0 < INPUT_CHANNELS_NUMBER ∧
    (∃ r' evs v,
      Read (some reg0) 5 0 [1, 2, 3, 4, 0, 0, 0, 0] [0, 0, 0, 255, 0, 0, 0, 0]
        = some (1, some v, some r', evs) ∧
      ∃ t', regLookup r' (uint32ofInt 5) = some (some t') ∧
        t'.measuresList.getD INPUT_POSITION 0 =
          (if byteAt [1, 2, 3, 4, 0, 0, 0, 0] 3 < 128
           then ((byteAt [1, 2, 3, 4, 0, 0, 0, 0] 0 + 256 * byteAt [1, 2, 3, 4, 0, 0, 0, 0] 1
                 + 65536 * byteAt [1, 2, 3, 4, 0, 0, 0, 0] 2 + 16777216 * byteAt [1, 2, 3, 4, 0, 0, 0, 0] 3 : Nat) : ℚ)
           else ((byteAt [1, 2, 3, 4, 0, 0, 0, 0] 0 + 256 * byteAt [1, 2, 3, 4, 0, 0, 0, 0] 1
                 + 65536 * byteAt [1, 2, 3, 4, 0, 0, 0, 0] 2 + 16777216 * byteAt [1, 2, 3, 4, 0, 0, 0, 0] 3 : Nat) : ℚ)
                - 4294967296) ∧
        t'.measuresList.getD INPUT_VELOCITY 0 =
          (if byteAt [0, 0, 0, 255, 0, 0, 0, 0] 3 < 128
           then ((byteAt [0, 0, 0, 255, 0, 0, 0, 0] 0 + 256 * byteAt [0, 0, 0, 255, 0, 0, 0, 0] 1
                 + 65536 * byteAt [0, 0, 0, 255, 0, 0, 0, 0] 2 + 16777216 * byteAt [0, 0, 0, 255, 0, 0, 0, 0] 3 : Nat) : ℚ)
           else ((byteAt [0, 0, 0, 255, 0, 0, 0, 0] 0 + 256 * byteAt [0, 0, 0, 255, 0, 0, 0, 0] 1
                 + 65536 * byteAt [0, 0, 0, 255, 0, 0, 0, 0] 2 + 16777216 * byteAt [0, 0, 0, 255, 0, 0, 0, 0] 3 : Nat) : ℚ)
                - 4294967296)) :=
  ⟨by rfl, by decide,
   read_position_velocity_decode reg0 5 0 task0 [1, 2, 3, 4, 0, 0, 0, 0]
     [0, 0, 0, 255, 0, 0, 0, 0] (by rfl) (by decide)⟩

/-- C3 counterexample: with PDO1 bytes `[0,0,0,0x80]` the claim predicts the
position measure 0x80000000 = 2147483648, but the C `int` arithmetic wraps and
`Read` stores -2147483648. -/
theorem read_position_msb_cex :
    (Read (some reg0) 5 0 [0, 0, 0, 128, 0, 0, 0, 0] (List.replicate 8 0)).map
        (fun res => res.2.1) = some (some (-2147483648 : ℚ)) ∧
    (some (some (-2147483648 : ℚ)))
      ≠ some (some ((0 + 256 * 0 + 65536 * 0 + 16777216 * 128 : Nat) : ℚ)) := by
  constructor
  · rfl
  · norm_num

theorem byteAt_cons_zero (a : Nat) (l : List Nat) : byteAt (a :: l) 0 = a % 256 := rfl

theorem byteAt_cons_succ (a : Nat) (l : List Nat) (i : Nat) :
    byteAt (a :: l) (i + 1) = byteAt l i := rfl

theorem byte32_lt (z : Int) (i : Nat) : byte32 z i < 256 := by
  unfold byte32; omega

theorem byte16_lt (z : Int) (i : Nat) : byte16 z i < 256 := by
  unfold byte16; omega

/-- Reassembling the four little-endian bytes of the 32-bit encoding of `z`
recovers `z mod 2^32`. -/
theorem byte32_reconstruct (z : Int) :
    byte32 z 0 + 256 * byte32 z 1 + 65536 * byte32 z 2 + 16777216 * byte32 z 3
      = (z % 4294967296).toNat := by
  have h1 : 0 ≤ z % 4294967296 := Int.emod_nonneg _ (by norm_num)
  have h2 : z % 4294967296 < 4294967296 := Int.emod_lt_of_pos _ (by norm_num)
  simp only [byte32]
  norm_num
  omega

/-- Reassembling the two little-endian bytes of the 16-bit encoding of `z`
recovers `z mod 2^16`. -/
theorem byte16_reconstruct (z : Int) :
    byte16 z 0 + 256 * byte16 z 1 = (z % 65536).toNat := by
  have h1 : 0 ≤ z % 65536 := Int.emod_nonneg _ (by norm_num)
  have h2 : z % 65536 < 65536 := Int.emod_lt_of_pos _ (by norm_num)
  simp only [byte16]
  norm_num
  omega

/-- For an in-range 16-bit value, adding the `0xFFFF` correction and narrowing
back to `int16_t` yields `t - 1` modulo 2^16. -/
theorem int16_plus_correction (t : Int) (hlo : -32768 ≤ t) (hhi : t ≤ 32767) :
    int16ofInt (int16ofInt t + 65535) % 65536 = (t - 1) % 65536 := by
  simp only [int16ofInt]
  split_ifs <;> omega

/-- For an in-range non-negative 16-bit value the narrowing chain is the
identity modulo 2^16. -/
theorem int16_plus_zero (t : Int) (hlo : 0 ≤ t) (hhi : t ≤ 32767) :
    int16ofInt (int16ofInt t + 0) % 65536 = t % 65536 := by
  simp only [int16ofInt]
  split_ifs <;> omega

/-- C2 (amended): for every registered handle and any channel argument,
`Write` encodes `(int) value` in two's complement as the little-endian 32-bit
position setpoint (outbound PDO1 bytes 0-3) and velocity setpoint (outbound
PDO2 bytes 0-3).  The current setpoint (PDO1 bytes 4-5) is truncation-only for
`value*1000 >= 0`; for `value*1000 < 0` the code adds `0xFFFF` to the
truncated 16-bit value and narrows back to `int16_t`, so the stored raw value
is `trunc(value*1000) - 1` modulo 2^16 — one less than the plain-truncation
contract the claim states. -/
theorem write_encode_contract (r : Registry) (tid : Int) (channel : Nat)
    (t : SignalIOTaskData) (v : ℚ)
    (hk : regLookup r (uint32ofInt tid) = some (some t))
    (hma : -32768 ≤ ctrunc (v * 1000) ∧ ctrunc (v * 1000) ≤ 32767) :
    ∃ r' p1 p2 f1 f2,
      Write (some r) tid channel v =
        some (true, some r', [Event.writeFrame f1 p1, Event.writeFrame f2 p2, Event.sync]) ∧
      byteAt p1 0 + 256 * byteAt p1 1 + 65536 * byteAt p1 2 + 16777216 * byteAt p1 3
        = uint32ofInt (ctrunc v) ∧
      byteAt p2 0 + 256 * byteAt p2 1 + 65536 * byteAt p2 2 + 16777216 * byteAt p2 3
        = uint32ofInt (ctrunc v) ∧
      ((byteAt p1 4 + 256 * byteAt p1 5 : Nat) : Int)
        = (if 0 ≤ v * 1000 then ctrunc (v * 1000) else ctrunc (v * 1000) - 1) % 65536 := by
  have hwrite : Write (some r) tid channel v =
      some (true, some (regUpdate r (uint32ofInt tid) { t with writePayload := pdo2WritePayload v }),
            [Event.writeFrame (frameAt t.writeFramesList PDO01) (pdo1WritePayload t.controlWord v),
             Event.writeFrame (frameAt t.writeFramesList PDO02) (pdo2WritePayload v),
             Event.sync]) := by
    simp [Write, hk]
  refine ⟨_, _, _, _, _, hwrite, ?_, ?_, ?_⟩
  · show byte32 (ctrunc v) 0 % 256 + 256 * (byte32 (ctrunc v) 1 % 256)
        + 65536 * (byte32 (ctrunc v) 2 % 256) + 16777216 * (byte32 (ctrunc v) 3 % 256)
        = uint32ofInt (ctrunc v)
    rw [Nat.mod_eq_of_lt (byte32_lt _ 0), Nat.mod_eq_of_lt (byte32_lt _ 1),
        Nat.mod_eq_of_lt (byte32_lt _ 2), Nat.mod_eq_of_lt (byte32_lt _ 3),
        byte32_reconstruct]
    rfl
  · show byte32 (ctrunc v) 0 % 256 + 256 * (byte32 (ctrunc v) 1 % 256)
        + 65536 * (byte32 (ctrunc v) 2 % 256) + 16777216 * (byte32 (ctrunc v) 3 % 256)
        = uint32ofInt (ctrunc v)
    rw [Nat.mod_eq_of_lt (byte32_lt _ 0), Nat.mod_eq_of_lt (byte32_lt _ 1),
        Nat.mod_eq_of_lt (byte32_lt _ 2), Nat.mod_eq_of_lt (byte32_lt _ 3),
        byte32_reconstruct]
    rfl
  · show ((byte16 (int16ofInt (int16ofInt (ctrunc (v * 1000)) + (if v * 1000 < 0 then 65535 else 0))) 0 % 256
          + 256 * (byte16 (int16ofInt (int16ofInt (ctrunc (v * 1000)) + (if v * 1000 < 0 then 65535 else 0))) 1 % 256)
          : Nat) : Int) = _
    rw [Nat.mod_eq_of_lt (byte16_lt _ 0), Nat.mod_eq_of_lt (byte16_lt _ 1),
        byte16_reconstruct]
    by_cases h0 : 0 ≤ v * 1000
    · have hnn : 0 ≤ ctrunc (v * 1000) := by
        rw [ctrunc]
        exact Int.tdiv_nonneg (Rat.num_nonneg.mpr h0) (by positivity)
      rw [if_neg (not_lt.mpr h0), if_pos h0]
      have hc := int16_plus_zero (ctrunc (v * 1000)) hnn hma.2
      omega
    · rw [if_pos (not_le.mp h0), if_neg h0]
      have hc := int16_plus_correction (ctrunc (v * 1000)) hma.1 hma.2
      omega

/-- Witness for C2 (amended): the spec's own scenario, `Write(H, 10.0)` on a
registered handle; the position/velocity fields reconstruct to 10 and the
current field to 10000. -/
theorem write_encode_contract_witness :
    regLookup reg0 (uint32ofInt 5) = some (some task0) ∧
    (-32768 ≤ ctrunc ((10 : ℚ) * 1000) ∧ ctrunc ((10 : ℚ) * 1000) ≤ 32767) ∧
    (∃ r' p1 p2 f1 f2,
      Write (some reg0) 5 1 10 =
        some (true, some r', [Event.writeFrame f1 p1, Event.writeFrame f2 p2, Event.sync]) ∧
      byteAt p1 0 + 256 * byteAt p1 1 + 65536 * byteAt p1 2 + 16777216 * byteAt p1 3
        = uint32ofInt (ctrunc 10) ∧
      byteAt p2 0 + 256 * byteAt p2 1 + 65536 * byteAt p2 2 + 16777216 * byteAt p2 3
        = uint32ofInt (ctrunc 10) ∧
      ((byteAt p1 4 + 256 * byteAt p1 5 : Nat) : Int)
        = (if 0 ≤ (10 : ℚ) * 1000 then ctrunc ((10 : ℚ) * 1000) else ctrunc ((10 : ℚ) * 1000) - 1) % 65536) := by
  have hten : ((10 : ℚ) * 1000) = ((10000 : Int) : ℚ) := by norm_num
  have hma : -32768 ≤ ctrunc ((10 : ℚ) * 1000) ∧ ctrunc ((10 : ℚ) * 1000) ≤ 32767 := by
    rw [hten, ctrunc_intCast]
    constructor <;> norm_num
  exact ⟨rfl, hma, write_encode_contract reg0 5 1 task0 10 rfl hma⟩

/-- C2 counterexample: `Write` of -1.0 on a registered handle stores current
setpoint raw bytes reassembling to 64535 = (-1000 - 1) mod 2^16, while the
claim's truncation-only contract predicts 64536 = -1000 mod 2^16. -/
theorem write_negative_current_cex :
    (Write (some reg0) 5 0 (-1)).map
        (fun res => res.2.2.map (fun e =>
          match e with
          | Event.writeFrame _ p => byteAt p 4 + 256 * byteAt p 5
          | _ => 0))
      = some [64535, 65535, 0] ∧ (64535 : Nat) ≠ ((-1000 : Int) % 65536).toNat := by
  have h5 : ((-1 : ℚ)) = ((-1 : Int) : ℚ) := by norm_num
  have hprod : ((-1 : Int) : ℚ) * 1000 = ((-1000 : Int) : ℚ) := by push_cast; norm_num
  constructor
  · simp only [Write, pdo1WritePayload, pdo2WritePayload, h5, hprod, ctrunc_intCast]
    decide
  · decide

/-- C4 (amended): for a registered handle, `Read` rejects an out-of-range
input channel and `AcquireOutputChannel` rejects an out-of-range output
channel before any transport interaction (empty trace, failure result); but
`Write` performs no channel validation at all — its `channel` argument is
ignored, so an out-of-range output channel still writes both frames and syncs
instead of reporting failure. -/
theorem channel_rejection (r : Registry) (tid : Int) (tp : Option SignalIOTaskData)
    (hk : regLookup r (uint32ofInt tid) = some tp) :
    (∀ channel, INPUT_CHANNELS_NUMBER ≤ channel → ∀ p1 p2,
       Read (some r) tid channel p1 p2 = some (0, none, some r, [])) ∧
    (∀ channel, OUTPUT_CHANNELS_NUMBER ≤ channel →
       AcquireOutputChannel (some r) tid channel = some (false, some r, [])) ∧
    (∀ ch1 ch2 v, Write (some r) tid ch1 v = Write (some r) tid ch2 v) := by
  refine ⟨?_, ?_, ?_⟩
  · intro channel hch p1 p2
    simp [Read, hk, hch]
  · intro channel hch
    simp [AcquireOutputChannel, hk, hch]
  · intro ch1 ch2 v
    rfl

/-- Witness for C4 (amended): concrete rejections on handle 5 and the
channel-independence of `Write`. -/
theorem channel_rejection_witness :
    regLookup reg0 (uint32ofInt 5) = some (some task0) ∧
    Read (some reg0) 5 4 [] [] = some (0, none, some reg0, []) ∧
    AcquireOutputChannel (some reg0) 5 3 = some (false, some reg0, []) ∧
    Write (some reg0) 5 0 7 = Write (some reg0) 5 9 7 :=
  ⟨rfl, (channel_rejection reg0 5 (some task0) rfl).1 4 (by decide) [] [],
   (channel_rejection reg0 5 (some task0) rfl).2.1 3 (by decide),
   (channel_rejection reg0 5 (some task0) rfl).2.2 0 9 7⟩

/-- C4 counterexample: `Write` on a registered handle with out-of-range
output channel 3 returns success and still emits two frame writes and a bus
sync (trace kinds `[writeFrame, writeFrame, sync]`), where the claim requires
failure with no transport interaction. -/
theorem write_channel_ignored_cex :
    (Write (some reg0) 5 3 0).map
        (fun res => (res.1, res.2.2.map (fun e =>
          match e with
          | Event.writeFrame _ _ => (0 : Nat)
          | Event.sync => 1
          | _ => 2)))
      = some (true, [0, 0, 1]) ∧
    ((true : Bool), ([0, 0, 1] : List Nat)) ≠ ((false : Bool), ([] : List Nat)) :=
  ⟨rfl, by decide⟩

/-- C5: on task-construction failure `InitDevice` does release all six
partially-acquired frame handles (inside `LoadTaskData`), but the rollback
then faults: the NULL result of `LoadTaskData` is stored as the entry's value
and `EndDevice` dereferences it (`task->isReading = false`) before removing
the entry, so the call never reaches its `return -1` — the claim's "returns
failure (-1) to the caller rather than aborting" is the intended behavior,
and the code aborts instead. -/
theorem initdevice_failure_rollback_faults :
    InitDevice none cfg5 allocFail = none ∧
    (LoadTaskData cfg5 allocFail).1 = none ∧
    ((LoadTaskData cfg5 allocFail).2.filterMap (fun e =>
        match e with
        | Event.endFrame f => some f
        | _ => none)).length = 6 :=
  ⟨rfl, rfl, rfl⟩

/-- C6 (amended): when the registry exists, every public operation on a
handle absent from it is a no-op returning its failure/empty result and never
faults; the claim's extension to "before any registration and after the
registry has been torn down to empty" fails, because in those states the
registry pointer is NULL and `kh_get` dereferences it. -/
theorem absent_handle_noops (r : Registry) (tid : Int)
    (hk : regLookup r (uint32ofInt tid) = none) (channel : Nat) (v : ℚ)
    (p1 p2 : Payload) :
    Read (some r) tid channel p1 p2 = some (0, none, some r, []) ∧
    Write (some r) tid channel v = some (false, some r, []) ∧
    HasError (some r) tid = some false ∧
    GetMaxInputSamplesNumber (some r) tid = some 0 ∧
    CheckInputChannel (some r) tid channel = some false ∧
    AcquireOutputChannel (some r) tid channel = some (false, some r, []) ∧
    Reset (some r) tid = some (some r, []) ∧
    EndDevice (some r) tid = some (some r, []) ∧
    ReleaseOutputChannel (some r) tid channel = some (some r, []) :=
  ⟨by simp [Read, hk], by simp [Write, hk], by simp [HasError, hk],
   by simp [GetMaxInputSamplesNumber, hk], by simp [CheckInputChannel, hk],
   by simp [AcquireOutputChannel, hk], by simp [Reset, hk],
   by simp [EndDevice, hk], by simp [ReleaseOutputChannel, hk]⟩

/-- Witness for C6 (amended): handle 99 is absent from `reg0`. -/
theorem absent_handle_noops_witness :
    regLookup reg0 (uint32ofInt 99) = none ∧
    (Read (some reg0) 99 0 [] [] = some (0, none, some reg0, []) ∧
     Write (some reg0) 99 0 0 = some (false, some reg0, []) ∧
     HasError (some reg0) 99 = some false ∧
     GetMaxInputSamplesNumber (some reg0) 99 = some 0 ∧
     CheckInputChannel (some reg0) 99 0 = some false ∧
     AcquireOutputChannel (some reg0) 99 0 = some (false, some reg0, []) ∧
     Reset (some reg0) 99 = some (some reg0, []) ∧
     EndDevice (some reg0) 99 = some (some reg0, []) ∧
     ReleaseOutputChannel (some reg0) 99 0 = some (some reg0, [])) :=
  ⟨rfl, absent_handle_noops reg0 99 rfl 0 0 [] []⟩

/-- C6 counterexample: before any registration (`tasksList == NULL`) the
operations dereference the NULL map and fault instead of returning their
empty/failure results: `Read` does not return 0 as the claim states. -/
theorem null_registry_fault_cex :
    Read none 0 0 [] [] = none ∧ Write none 0 0 0 = none ∧
    EndDevice none 0 = none ∧ HasError none 0 = none ∧
    Read none 0 0 [] [] ≠ some (0, none, none, []) :=
  ⟨rfl, rfl, rfl, rfl, by simp [Read]⟩

/-- The task a successful `LoadTaskData` builds for configuration "5" under
`allocOK`. -/
def loadedTask5 : SignalIOTaskData :=
  { readFramesList := [some 0, some 2, some 4], writeFramesList := [some 1, some 3, some 5],
    statusWord := 0, controlWord := 6, measuresList := [0, 0, 0, 0],
    isReading := false, isOutputChannelUsed := false,
    readPayload := List.replicate 8 0, writePayload := List.replicate 8 0 }

/-- C7: `InitDevice` is idempotent by configuration hash: starting from the
never-created registry, a first successful call returns handle
`(int) hash(config)` and registers a single entry; a second call with the
same configuration text returns the same handle, leaves the single-entry
registry unchanged, and performs no transport interaction (no new Task is
constructed). -/
theorem initdevice_idempotent (cfg : List Nat) (alloc : Nat → FrameDir → Nat → Option Nat)
    (t : SignalIOTaskData) (h : (LoadTaskData cfg alloc).1 = some t) :
    InitDevice none cfg alloc
      = some (int32ofNat (kh_str_hash cfg), some [(kh_str_hash cfg, some t)],
              (LoadTaskData cfg alloc).2) ∧
    InitDevice (some [(kh_str_hash cfg, some t)]) cfg alloc
      = some (int32ofNat (kh_str_hash cfg), some [(kh_str_hash cfg, some t)], []) := by
  constructor
  · rcases hLT : LoadTaskData cfg alloc with ⟨topt, evs⟩
    rw [hLT] at h
    simp only at h
    subst h
    simp [InitDevice, regLookup, hLT]
  · simp [InitDevice, regLookup]

/-- Witness for C7: configuration "5" with an all-successful allocation
oracle. -/
theorem initdevice_idempotent_witness :
    (LoadTaskData cfg5 allocOK).1 = some loadedTask5 ∧
    (InitDevice none cfg5 allocOK
      = some (int32ofNat (kh_str_hash cfg5), some [(kh_str_hash cfg5, some loadedTask5)],
              (LoadTaskData cfg5 allocOK).2) ∧
     InitDevice (some [(kh_str_hash cfg5, some loadedTask5)]) cfg5 allocOK
      = some (int32ofNat (kh_str_hash cfg5), some [(kh_str_hash cfg5, some loadedTask5)], [])) :=
  ⟨rfl, initdevice_idempotent cfg5 allocOK loadedTask5 rfl⟩

/-- Canonical success equation for `AcquireOutputChannel` on a registered,
unused task with an in-range channel. -/
theorem acquireOutputChannel_eq (r : Registry) (tid : Int) (t : SignalIOTaskData)
    (ch : Nat) (hk : regLookup r (uint32ofInt tid) = some (some t))
    (hch : ¬ (OUTPUT_CHANNELS_NUMBER ≤ ch)) (hused : t.isOutputChannelUsed = false) :
    AcquireOutputChannel (some r) tid ch
      = some (true,
          some (regUpdate r (uint32ofInt tid)
            { (EnableOutput t true).1 with isOutputChannelUsed := true }),
          Event.writeSingleValue (frameAt t.writeFramesList SDO) 0x6060 0x00
              (OPERATION_MODES.getD ch 0) :: (EnableOutput t true).2) := by
  simp [AcquireOutputChannel, hk, hch, hused, EnableOutput]

/-- C10: for a registered handle and an in-range channel,
`ReleaseOutputChannel` unconditionally writes mode-of-operation 0, performs
the two-step disable sequence, and clears `isOutputChannelUsed` — with no
precondition on whether or which channel was acquired — so a subsequent
`AcquireOutputChannel` on any in-range channel succeeds. -/
theorem release_output_unconditional (r : Registry) (tid : Int)
    (t : SignalIOTaskData) (ch : Nat)
    (hk : regLookup r (uint32ofInt tid) = some (some t))
    (hch : ch < OUTPUT_CHANNELS_NUMBER) :
    ∃ t', ReleaseOutputChannel (some r) tid ch =
        some (some (regUpdate r (uint32ofInt tid) t'),
          [Event.writeSingleValue (frameAt t.writeFramesList SDO) 0x6060 0x00 0,
           Event.writeSingleValue (frameAt t.writeFramesList SDO) 0x6040 0x00
             ((t.controlWord ||| SWITCH_ON) &&& (65535 ^^^ ENABLE_OPERATION)),
           Event.delay 200,
           Event.writeSingleValue (frameAt t.writeFramesList SDO) 0x6040 0x00
             (((t.controlWord ||| SWITCH_ON) &&& (65535 ^^^ ENABLE_OPERATION)) &&& (65535 ^^^ SWITCH_ON))]) ∧
      t'.isOutputChannelUsed = false ∧
      (∀ ch2, ch2 < OUTPUT_CHANNELS_NUMBER →
        ∃ r2 evs2, AcquireOutputChannel (some (regUpdate r (uint32ofInt tid) t')) tid ch2
          = some (true, r2, evs2)) := by
  have hch' : ¬ (OUTPUT_CHANNELS_NUMBER ≤ ch) := Nat.not_le.mpr hch
  refine ⟨{ (EnableOutput t false).1 with isOutputChannelUsed := false }, ?_, rfl, ?_⟩
  · simp [ReleaseOutputChannel, hk, hch', EnableOutput]
  · intro ch2 hch2
    have hch2' : ¬ (OUTPUT_CHANNELS_NUMBER ≤ ch2) := Nat.not_le.mpr hch2
    have hlook := regLookup_regUpdate r (uint32ofInt tid)
      { (EnableOutput t false).1 with isOutputChannelUsed := false } (some t) hk
    exact ⟨_, _, acquireOutputChannel_eq _ tid _ ch2 hlook hch2' rfl⟩

/-- Witness for C10: releasing channel 0 on a handle whose task has the usage
flag set (and then acquiring channel 2). -/
theorem release_output_unconditional_witness :
    regLookup reg1 (uint32ofInt 5) = some (some task1) ∧ 0 < OUTPUT_CHANNELS_NUMBER ∧
    (∃ t', ReleaseOutputChannel (some reg1) 5 0 =
        some (some (regUpdate reg1 (uint32ofInt 5) t'),
          [Event.writeSingleValue (frameAt task1.writeFramesList SDO) 0x6060 0x00 0,
           Event.writeSingleValue (frameAt task1.writeFramesList SDO) 0x6040 0x00
             ((task1.controlWord ||| SWITCH_ON) &&& (65535 ^^^ ENABLE_OPERATION)),
           Event.delay 200,
           Event.writeSingleValue (frameAt task1.writeFramesList SDO) 0x6040 0x00
             (((task1.controlWord ||| SWITCH_ON) &&& (65535 ^^^ ENABLE_OPERATION)) &&& (65535 ^^^ SWITCH_ON))]) ∧
      t'.isOutputChannelUsed = false ∧
      (∀ ch2, ch2 < OUTPUT_CHANNELS_NUMBER →
        ∃ r2 evs2, AcquireOutputChannel (some (regUpdate reg1 (uint32ofInt 5) t')) 5 ch2
          = some (true, r2, evs2))) :=
  ⟨rfl, by decide, release_output_unconditional reg1 5 task1 0 rfl (by decide)⟩

/-- C8: exclusive acquisition.  Acquiring while `isOutputChannelUsed` is set
returns failure with no transport interaction and no state change; after a
`ReleaseOutputChannel`, a subsequent `AcquireOutputChannel` on any in-range
channel succeeds and sets the usage flag. -/
theorem acquire_output_exclusive (r : Registry) (tid : Int)
    (t : SignalIOTaskData) (ch ch2 : Nat)
    (hk : regLookup r (uint32ofInt tid) = some (some t))
    (hch : ch < OUTPUT_CHANNELS_NUMBER) (hch2 : ch2 < OUTPUT_CHANNELS_NUMBER) :
    (t.isOutputChannelUsed = true →
      AcquireOutputChannel (some r) tid ch = some (false, some r, [])) ∧
    (∀ r1 evs1, ReleaseOutputChannel (some r) tid ch = some (some r1, evs1) →
      ∃ r2 evs2 t2, AcquireOutputChannel (some r1) tid ch2 = some (true, some r2, evs2) ∧
        regLookup r2 (uint32ofInt tid) = some (some t2) ∧
        t2.isOutputChannelUsed = true) := by
  have hch' : ¬ (OUTPUT_CHANNELS_NUMBER ≤ ch) := Nat.not_le.mpr hch
  have hch2' : ¬ (OUTPUT_CHANNELS_NUMBER ≤ ch2) := Nat.not_le.mpr hch2
  constructor
  · intro hused
    simp [AcquireOutputChannel, hk, hch', hused]
  · intro r1 evs1 hrel
    have hrel' : ReleaseOutputChannel (some r) tid ch =
        some (some (regUpdate r (uint32ofInt tid)
                { (EnableOutput t false).1 with isOutputChannelUsed := false }),
              Event.writeSingleValue (frameAt t.writeFramesList SDO) 0x6060 0x00 0
                :: (EnableOutput t false).2) := by
      simp [ReleaseOutputChannel, hk, hch']
    rw [hrel'] at hrel
    have hr1 : r1 = regUpdate r (uint32ofInt tid)
        { (EnableOutput t false).1 with isOutputChannelUsed := false } := by
      injection hrel with h1
      injection h1 with h2 h3
      exact (Option.some.inj h2).symm
    subst hr1
    have hlook := regLookup_regUpdate r (uint32ofInt tid)
      { (EnableOutput t false).1 with isOutputChannelUsed := false } (some t) hk
    exact ⟨_, _, _, acquireOutputChannel_eq _ tid _ ch2 hlook hch2' rfl,
           regLookup_regUpdate _ _ _ _ hlook, rfl⟩

/-- Witness for C8: on `reg1` (usage flag set) the second acquisition of
channel 1 fails; releasing channel 1 then acquiring channel 2 succeeds. -/
theorem acquire_output_exclusive_witness :
    regLookup reg1 (uint32ofInt 5) = some (some task1) ∧
    1 < OUTPUT_CHANNELS_NUMBER ∧ 2 < OUTPUT_CHANNELS_NUMBER ∧
    ((task1.isOutputChannelUsed = true →
      AcquireOutputChannel (some reg1) 5 1 = some (false, some reg1, [])) ∧
     (∀ r1 evs1, ReleaseOutputChannel (some reg1) 5 1 = some (some r1, evs1) →
      ∃ r2 evs2 t2, AcquireOutputChannel (some r1) 5 2 = some (true, some r2, evs2) ∧
        regLookup r2 (uint32ofInt 5) = some (some t2) ∧
        t2.isOutputChannelUsed = true)) :=
  ⟨rfl, by decide, by decide,
   acquire_output_exclusive reg1 5 task1 1 2 rfl (by decide) (by decide)⟩

/-- C9: `EndDevice` on a handle absent from an existing registry is a no-op;
on a registered handle it releases all six frame bindings (the three inbound
and three outbound handles, in loop order), removes the mapping so the handle
is no longer bound in the resulting registry state, and, when the map thereby
becomes empty, destroys the map itself (the registry state returns to the
NULL / never-created state). -/
theorem enddevice_releases_and_removes (r : Registry) (tid : Int)
    (hnd : (r.map Prod.fst).Nodup) :
    (regLookup r (uint32ofInt tid) = none → EndDevice (some r) tid = some (some r, [])) ∧
    (∀ t, regLookup r (uint32ofInt tid) = some (some t) →
      ∃ reg' evs, EndDevice (some r) tid = some (reg', evs) ∧
        evs.filterMap (fun e =>
            match e with
            | Event.endFrame f => some f
            | _ => none)
          = [frameAt t.readFramesList 0, frameAt t.writeFramesList 0,
             frameAt t.readFramesList 1, frameAt t.writeFramesList 1,
             frameAt t.readFramesList 2, frameAt t.writeFramesList 2] ∧
        (∀ r2, reg' = some r2 → regLookup r2 (uint32ofInt tid) = none) ∧
        (r.length = 1 → reg' = none)) := by
  constructor
  · intro hk
    simp [EndDevice, hk]
  · intro t hk
    have hsome : (regLookup r (uint32ofInt tid)).isSome := by rw [hk]; rfl
    refine ⟨(if (regErase r (uint32ofInt tid)).length = 0 then none
             else some (regErase r (uint32ofInt tid))),
            (EnableOutput { t with isReading := false } false).2
              ++ unloadEvents (some (EnableOutput { t with isReading := false } false).1),
            ?_, ?_, ?_, ?_⟩
    · simp [EndDevice, hk, EnableOutput]
    · rfl
    · intro r2 hr2
      by_cases h0 : (regErase r (uint32ofInt tid)).length = 0
      · rw [if_pos h0] at hr2
        exact absurd hr2 (by simp)
      · rw [if_neg h0] at hr2
        rw [← Option.some.inj hr2]
        exact regLookup_regErase_of_nodup r _ hnd hsome
    · intro hlen
      have hel := regErase_length r (uint32ofInt tid) hsome
      rw [hlen] at hel
      rw [if_pos hel]

/-- Witness for C9: unknown handle 99 is a no-op on `reg0`; ending handle 5
releases the six bound frames and empties (and so destroys) the map. -/
theorem enddevice_releases_and_removes_witness :
    (reg0.map Prod.fst).Nodup ∧
    regLookup reg0 (uint32ofInt 5) = some (some task0) ∧
    ((regLookup reg0 (uint32ofInt 99) = none → EndDevice (some reg0) 99 = some (some reg0, [])) ∧
     (∀ t, regLookup reg0 (uint32ofInt 5) = some (some t) →
      ∃ reg' evs, EndDevice (some reg0) 5 = some (reg', evs) ∧
        evs.filterMap (fun e =>
            match e with
            | Event.endFrame f => some f
            | _ => none)
          = [frameAt t.readFramesList 0, frameAt t.writeFramesList 0,
             frameAt t.readFramesList 1, frameAt t.writeFramesList 1,
             frameAt t.readFramesList 2, frameAt t.writeFramesList 2] ∧
        (∀ r2, reg' = some r2 → regLookup r2 (uint32ofInt 5) = none) ∧
        (reg0.length = 1 → reg' = none))) :=
  ⟨by decide, rfl,
   (enddevice_releases_and_removes reg0 99 (by decide)).1,
   (enddevice_releases_and_removes reg0 5 (by decide)).2⟩
